import Mathlib

/-
Shallow embedding of the staff-assessment lease queue of
openassessment/assessment/models/staff.py (class StaffWorkflow).

Timestamps are modelled as Int, at second granularity; at this
granularity the strftime truncation of the cutoff in
get_workflow_statistics (staff.py line 68) is the identity, so the
cutoff is simply `now - TIME_LIMIT`.  A store is the list of rows of
the StaffWorkflow table; `id` is the auto primary key (unique,
ascending in insertion order).
-/

namespace OraStaff

/-- The argument of close_active_assessment in the source is an
assessment object of which only the `id` attribute is read
(staff.py line 123). -/
structure Assessment where
  id : String
deriving Repr, DecidableEq

/-- One row of the StaffWorkflow table (staff.py lines 31-40), plus the
implicit Django auto primary key `id` used by the Meta ordering
(staff.py line 43). -/
structure StaffWorkflow where
  id : Nat
  scorer_id : String
  course_id : String
  item_id : String
  submission_uuid : String
  created_at : Int
  grading_completed_at : Option Int
  grading_started_at : Option Int
  cancelled_at : Option Int
  assessment : Option String
  returned_at : Option Int
deriving Repr, DecidableEq

/-- TIME_LIMIT = timedelta(hours=8) (staff.py line 29), in seconds. -/
def TIME_LIMIT : Int := 8 * 60 * 60

/-- The StaffWorkflow table: one row per record. -/
abbrev Store := List StaffWorkflow

/-- is_cancelled property (staff.py lines 46-54): bool(self.cancelled_at),
a datetime is truthy and None is falsy. -/
def is_cancelled (w : StaffWorkflow) : Bool :=
  w.cancelled_at.isSome

/-- Filter course_id=course_id, item_id=item_id common to all queries. -/
def categoryMatch (course_id item_id : String) (w : StaffWorkflow) : Bool :=
  w.course_id == course_id && w.item_id == item_id

/-- The Q(grading_started_at=None) | Q(grading_started_at__lte=timeout)
disjunct of the ungraded query (staff.py line 70). -/
def staleLease (timeout : Int) (w : StaffWorkflow) : Bool :=
  match w.grading_started_at with
  | none => true
  | some g => g ≤ timeout

/-- The grading_started_at__gt=timeout filter of the in-progress query
(staff.py line 76). -/
def activeLease (timeout : Int) (w : StaffWorkflow) : Bool :=
  match w.grading_started_at with
  | none => false
  | some g => timeout < g

/-- Row predicate of the ungraded count (staff.py lines 69-72). -/
def ungradedPred (course_id item_id : String) (timeout : Int) (w : StaffWorkflow) : Bool :=
  categoryMatch course_id item_id w && w.grading_completed_at == none
    && w.cancelled_at == none && staleLease timeout w

/-- Row predicate of the in-progress count (staff.py lines 74-77). -/
def inProgressPred (course_id item_id : String) (timeout : Int) (w : StaffWorkflow) : Bool :=
  categoryMatch course_id item_id w && w.grading_completed_at == none
    && w.cancelled_at == none && activeLease timeout w

/-- Row predicate of the graded count (staff.py lines 79-81):
cancelled_at=None, excluding grading_completed_at=None. -/
def gradedPred (course_id item_id : String) (w : StaffWorkflow) : Bool :=
  categoryMatch course_id item_id w && w.cancelled_at == none
    && !(w.grading_completed_at == none)

/-- The dictionary returned by get_workflow_statistics (staff.py line 83). -/
structure Stats where
  ungraded : Nat
  in_progress : Nat
  graded : Nat
deriving Repr, DecidableEq

/-- get_workflow_statistics (staff.py lines 56-83): three counts over the
table, with timeout = now() - TIME_LIMIT. -/
def get_workflow_statistics (s : Store) (course_id item_id : String) (t : Int) : Stats :=
  let timeout := t - TIME_LIMIT
  { ungraded := s.countP (ungradedPred course_id item_id timeout)
    in_progress := s.countP (inProgressPred course_id item_id timeout)
    graded := s.countP (gradedPred course_id item_id) }

/-- State-threading form of get_workflow_statistics: the method body
(staff.py lines 68-83) issues only count() queries and contains no save
or update, so the table after the call is the table before it. -/
def get_workflow_statistics_op (s : Store) (course_id item_id : String) (t : Int) :
    Stats × Store :=
  (get_workflow_statistics s course_id item_id t, s)

/-- Row predicate of get_submissions_for_review (staff.py lines 104-110):
grading_completed_at=None, cancelled_at=None, returned_at=None. -/
def pendingPred (course_id item_id : String) (w : StaffWorkflow) : Bool :=
  categoryMatch course_id item_id w && w.grading_completed_at == none
    && w.cancelled_at == none && w.returned_at == none

/-- The Meta ordering of the model: ordering = created_at then id
(staff.py line 43), as a relation on rows. -/
def queryLE (a b : StaffWorkflow) : Prop :=
  a.created_at < b.created_at ∨ (a.created_at = b.created_at ∧ a.id ≤ b.id)

instance : DecidableRel queryLE := fun a b => by
  unfold queryLE; infer_instance

instance : IsTotal StaffWorkflow queryLE :=
  ⟨by intro a b; unfold queryLE; omega⟩

instance : IsTrans StaffWorkflow queryLE :=
  ⟨by intro a b c; unfold queryLE; omega⟩

/-- Rows of the table in the default Meta query order
(created_at, id) of staff.py line 43. -/
def orderedRecords (s : Store) : Store :=
  List.insertionSort queryLE s

/-- get_submissions_for_review (staff.py lines 85-117): filtered queryset
in the Meta order, projected to submission_uuid by values_list. -/
def get_submissions_for_review (s : Store) (course_id item_id : String) : List String :=
  ((orderedRecords s).filter (pendingPred course_id item_id)).map
    (fun w => w.submission_uuid)

/-- close_active_assessment (staff.py lines 119-126): unconditionally set
assessment = assessment.id, scorer_id, grading_completed_at = now(). -/
def close_active_assessment (w : StaffWorkflow) (assessment : Assessment)
    (scorer_id : String) (t : Int) : StaffWorkflow :=
  { w with assessment := some assessment.id, scorer_id := scorer_id,
           grading_completed_at := some t }

/-- Effect of close_active_assessment followed by save() on the table:
the row of the instance (addressed by its unique submission_uuid) is
replaced by the updated row; no other row is touched. -/
def store_close_active_assessment (s : Store) (submission_uuid : String)
    (assessment : Assessment) (scorer_id : String) (t : Int) : Store :=
  s.map fun w =>
    if w.submission_uuid == submission_uuid then
      close_active_assessment w assessment scorer_id t
    else w

/-- Error outcome of the finalizer operations described by the spec. -/
inductive FinalizeError where
  | stateConflict
deriving Repr, DecidableEq

/-- Modelled from the spec: the Cancel operation of the LeaseFinalizer
(spec section 4.3) is not under src; per the spec it sets cancelled_at,
is idempotent, and is rejected with StateConflictError when a different
terminal outcome is already recorded. -/
def cancel_item (w : StaffWorkflow) (t : Int) : Except FinalizeError StaffWorkflow :=
  if w.grading_completed_at.isSome || w.returned_at.isSome then
    .error .stateConflict
  else if w.cancelled_at.isSome then
    .ok w
  else
    .ok { w with cancelled_at := some t }

/-- Modelled from the spec: candidate predicate of the ClaimSelector
(spec section 4.2, not under src): completed_at, cancelled_at,
returned_at all null, and lease null or at or before the expiry
cutoff. -/
def claimablePred (cutoff : Int) (w : StaffWorkflow) : Bool :=
  w.grading_completed_at == none && w.cancelled_at == none
    && w.returned_at == none && staleLease cutoff w

/-- Modelled from the spec: the Leased transition written by a successful
claim (spec section 4.2 step 3): lease_started_at = now and scorer_id =
the requesting scorer. -/
def leaseRecord (w : StaffWorkflow) (scorer_id : String) (t : Int) : StaffWorkflow :=
  { w with scorer_id := scorer_id, grading_started_at := some t }

/-- Modelled from the spec: the write-time precondition of the store
conditional update (spec sections 4.1 and 4.2 step 3), aimed at the
record with the given submission_uuid. -/
def casTarget (submission_uuid : String) (cutoff : Int) (w : StaffWorkflow) : Bool :=
  w.submission_uuid == submission_uuid && claimablePred cutoff w

/-- Modelled from the spec: one atomic conditional-update attempt of a
claim_next call on the record with the given submission_uuid (spec
sections 4.1 and 4.2): if the precondition holds at write time the
record becomes Leased and the attempt reports success, otherwise the
store is unchanged and the attempt reports failure.  Because the store
update is atomic, N concurrent claim_next calls aimed at the same single
remaining candidate linearize to a sequence of these attempts. -/
def casClaim (s : Store) (submission_uuid scorer_id : String) (t : Int) :
    Bool × Store :=
  if s.any (casTarget submission_uuid (t - TIME_LIMIT)) then
    (true, s.map fun w =>
      if casTarget submission_uuid (t - TIME_LIMIT) w then
        leaseRecord w scorer_id t
      else w)
  else
    (false, s)

/-- Modelled from the spec: a schedule of N concurrent claim_next calls
on the same candidate, linearized in the order of the scorer list; every
interleaving of the atomic conditional updates is some such order. -/
def runCas (s : Store) (submission_uuid : String) (scorers : List String)
    (t : Int) : List Bool × Store :=
  match scorers with
  | [] => ([], s)
  | sc :: rest =>
      let p := casClaim s submission_uuid sc t
      let q := runCas p.2 submission_uuid rest t
      (p.1 :: q.1, q.2)

/-- A baseline fresh record used by concrete evaluations. -/
def w0 : StaffWorkflow :=
  { id := 0, scorer_id := "", course_id := "c", item_id := "i",
    submission_uuid := "u0", created_at := 0, grading_completed_at := none,
    grading_started_at := none, cancelled_at := none, assessment := none,
    returned_at := none }

/-- Each row contributes to exactly one of the three statistics counts
precisely when it matches the category and is not cancelled; returned_at
plays no role in any of the three predicates. -/
theorem stats_pointwise (c i : String) (timeout : Int) (w : StaffWorkflow) :
    ((if ungradedPred c i timeout w then 1 else 0) : Nat)
      + (if inProgressPred c i timeout w then 1 else 0)
      + (if gradedPred c i w then 1 else 0)
    = if categoryMatch c i w && w.cancelled_at == none then 1 else 0 := by
  unfold ungradedPred inProgressPred gradedPred staleLease activeLease
  cases hm : categoryMatch c i w <;>
    cases hc : w.cancelled_at <;>
    cases hg : w.grading_completed_at <;>
    cases hs : w.grading_started_at <;>
    simp_all <;> (try split_ifs) <;> omega

/-- The three statistics predicates are pairwise disjoint on every row. -/
theorem stats_disjoint (c i : String) (timeout : Int) (w : StaffWorkflow) :
    (ungradedPred c i timeout w && inProgressPred c i timeout w) = false
    ∧ (ungradedPred c i timeout w && gradedPred c i w) = false
    ∧ (inProgressPred c i timeout w && gradedPred c i w) = false := by
  unfold ungradedPred inProgressPred gradedPred staleLease activeLease
  cases hm : categoryMatch c i w <;>
    cases hc : w.cancelled_at <;>
    cases hg : w.grading_completed_at <;>
    cases hs : w.grading_started_at <;>
    simp_all <;> (try split_ifs) <;> omega

/-- C1 (amended): the three counts of get_workflow_statistics are pairwise
disjoint and their sum equals the number of records of the category whose
cancelled_at is null; returned_at is not consulted, so returned but not
cancelled records are still counted. -/
theorem get_workflow_statistics_partition (s : Store) (c i : String) (t : Int) :
    ((get_workflow_statistics s c i t).ungraded
        + (get_workflow_statistics s c i t).in_progress
        + (get_workflow_statistics s c i t).graded
      = s.countP (fun w => categoryMatch c i w && w.cancelled_at == none))
    ∧ ∀ w : StaffWorkflow,
        (ungradedPred c i (t - TIME_LIMIT) w && inProgressPred c i (t - TIME_LIMIT) w) = false
        ∧ (ungradedPred c i (t - TIME_LIMIT) w && gradedPred c i w) = false
        ∧ (inProgressPred c i (t - TIME_LIMIT) w && gradedPred c i w) = false := by
  constructor
  · show s.countP (ungradedPred c i (t - TIME_LIMIT))
        + s.countP (inProgressPred c i (t - TIME_LIMIT))
        + s.countP (gradedPred c i)
      = s.countP (fun w => categoryMatch c i w && w.cancelled_at == none)
    induction s with
    | nil => rfl
    | cons a l ih =>
        simp only [List.countP_cons]
        have := stats_pointwise c i (t - TIME_LIMIT) a
        omega
  · intro w
    exact stats_disjoint c i (t - TIME_LIMIT) w

/-- C1 counterexample: a returned but not cancelled record is counted as
ungraded by get_workflow_statistics, so the sum of the three counts is 1
while the number of non-cancelled, non-returned records of the category
is 0. -/
theorem stats_count_includes_returned :
    ((get_workflow_statistics [{ w0 with returned_at := some 1 }] "c" "i" 100000).ungraded
        + (get_workflow_statistics [{ w0 with returned_at := some 1 }] "c" "i" 100000).in_progress
        + (get_workflow_statistics [{ w0 with returned_at := some 1 }] "c" "i" 100000).graded
      = 1)
    ∧ (([{ w0 with returned_at := some 1 }] : Store).countP
        (fun w => categoryMatch "c" "i" w && w.cancelled_at == none && w.returned_at == none)
      = 0) := by
  exact ⟨by decide, by decide⟩

/-- C2 counterexample: starting from a fresh record, Cancel (modelled
from the spec) followed by close_active_assessment yields a record whose
grading_completed_at and cancelled_at are both non-null, so the
completion operation can make a record both graded and cancelled. -/
theorem close_after_cancel_both_nonnull :
    cancel_item w0 5 = .ok { w0 with cancelled_at := some 5 }
    ∧ (close_active_assessment { w0 with cancelled_at := some 5 } ⟨"a1"⟩ "s1" 10).grading_completed_at
        = some 10
    ∧ (close_active_assessment { w0 with cancelled_at := some 5 } ⟨"a1"⟩ "s1" 10).cancelled_at
        = some 5 :=
  ⟨rfl, rfl, rfl⟩

/-- C2 (amended): close_active_assessment never modifies cancelled_at, so
on a record whose cancelled_at is null the exclusion between
grading_completed_at and cancelled_at still holds after the call; a
record that is already cancelled, however, becomes both graded and
cancelled. -/
theorem close_active_assessment_exclusion (w : StaffWorkflow) (a : Assessment)
    (sc : String) (t : Int) (h : w.cancelled_at = none) :
    ((close_active_assessment w a sc t).grading_completed_at.isSome
      && (close_active_assessment w a sc t).cancelled_at.isSome) = false
    ∧ (close_active_assessment w a sc t).cancelled_at = w.cancelled_at := by
  simp [close_active_assessment, h]

/-- Witness for close_active_assessment_exclusion at the fresh record w0. -/
theorem close_active_assessment_exclusion_witness :
    w0.cancelled_at = none
    ∧ (((close_active_assessment w0 ⟨"a1"⟩ "s1" 10).grading_completed_at.isSome
        && (close_active_assessment w0 ⟨"a1"⟩ "s1" 10).cancelled_at.isSome) = false
      ∧ (close_active_assessment w0 ⟨"a1"⟩ "s1" 10).cancelled_at = w0.cancelled_at) :=
  ⟨rfl, close_active_assessment_exclusion w0 ⟨"a1"⟩ "s1" 10 rfl⟩

/-- C3 counterexample: close_active_assessment on an already-cancelled
record does not fail and does not leave the state unchanged: it returns
the record with assessment, scorer_id and grading_completed_at
overwritten. -/
theorem close_on_cancelled_mutates :
    close_active_assessment { w0 with cancelled_at := some 5 } ⟨"a1"⟩ "s1" 10
      = { w0 with cancelled_at := some 5, assessment := some "a1",
                  scorer_id := "s1", grading_completed_at := some 10 }
    ∧ close_active_assessment { w0 with cancelled_at := some 5 } ⟨"a1"⟩ "s1" 10
        ≠ { w0 with cancelled_at := some 5 } :=
  ⟨rfl, by decide⟩

/-- C3 (amended): close_active_assessment on a record whose cancelled_at
is non-null raises no error; it sets assessment, scorer_id and
grading_completed_at and leaves cancelled_at unchanged, so the stored
state does change. -/
theorem close_on_cancelled_succeeds (w : StaffWorkflow) (c0 : Int)
    (a : Assessment) (sc : String) (t : Int) (h : w.cancelled_at = some c0) :
    (close_active_assessment w a sc t).cancelled_at = some c0
    ∧ (close_active_assessment w a sc t).grading_completed_at = some t
    ∧ (close_active_assessment w a sc t).assessment = some a.id
    ∧ (close_active_assessment w a sc t).scorer_id = sc := by
  simp [close_active_assessment, h]

/-- Witness for close_on_cancelled_succeeds at a cancelled record. -/
theorem close_on_cancelled_succeeds_witness :
    ({ w0 with cancelled_at := some 7 } : StaffWorkflow).cancelled_at = some 7
    ∧ ((close_active_assessment { w0 with cancelled_at := some 7 } ⟨"a2"⟩ "s2" 11).cancelled_at = some 7
      ∧ (close_active_assessment { w0 with cancelled_at := some 7 } ⟨"a2"⟩ "s2" 11).grading_completed_at = some 11
      ∧ (close_active_assessment { w0 with cancelled_at := some 7 } ⟨"a2"⟩ "s2" 11).assessment = some "a2"
      ∧ (close_active_assessment { w0 with cancelled_at := some 7 } ⟨"a2"⟩ "s2" 11).scorer_id = "s2") :=
  ⟨rfl, close_on_cancelled_succeeds { w0 with cancelled_at := some 7 } 7 ⟨"a2"⟩ "s2" 11 rfl⟩

/-- C7: for every record, whatever its prior lease or scorer state,
close_active_assessment sets grading_completed_at to the supplied
current time, assessment to the id of the supplied assessment, and
scorer_id to the finalizing scorer, overwriting any previous scorer
attribution; the operation is total, so no precondition beyond the
record itself is enforced. -/
theorem close_active_assessment_sets_fields (w : StaffWorkflow) (a : Assessment)
    (sc : String) (t : Int) :
    (close_active_assessment w a sc t).grading_completed_at = some t
    ∧ (close_active_assessment w a sc t).assessment = some a.id
    ∧ (close_active_assessment w a sc t).scorer_id = sc :=
  ⟨rfl, rfl, rfl⟩

/-- C8: get_workflow_statistics is a pure read: its body issues only
count queries, so in state-threading form the table after the call is
exactly the table before it and the returned counts are those of
get_workflow_statistics on the unchanged table. -/
theorem get_workflow_statistics_pure_read (s : Store) (c i : String) (t : Int) :
    (get_workflow_statistics_op s c i t).2 = s
    ∧ (get_workflow_statistics_op s c i t).1 = get_workflow_statistics s c i t :=
  ⟨rfl, rfl⟩

/-- C4 counterexample: a record whose lease is active at instant 100
(leased at 99, well within TIME_LIMIT) and has no terminal timestamp is
still returned by get_submissions_for_review, which never consults
grading_started_at. -/
theorem review_includes_leased :
    activeLease (100 - TIME_LIMIT) { w0 with grading_started_at := some 99 } = true
    ∧ get_submissions_for_review [{ w0 with grading_started_at := some 99 }] "c" "i"
        = ["u0"] :=
  ⟨rfl, by decide⟩

/-- C4 (amended): get_submissions_for_review returns exactly the
submission_uuids of the records of the category whose
grading_completed_at, cancelled_at and returned_at are all null; lease
state is not consulted, so currently leased records are included. -/
theorem get_submissions_for_review_membership (s : Store) (c i u : String) :
    u ∈ get_submissions_for_review s c i ↔
      ∃ w, w ∈ s ∧ w.submission_uuid = u ∧ categoryMatch c i w = true
        ∧ w.grading_completed_at = none ∧ w.cancelled_at = none
        ∧ w.returned_at = none := by
  unfold get_submissions_for_review orderedRecords
  simp only [List.mem_map, List.mem_filter]
  constructor
  · rintro ⟨w, ⟨hw, hp⟩, rfl⟩
    have hm := (List.perm_insertionSort queryLE s).mem_iff.mp hw
    simp only [pendingPred, Bool.and_eq_true, beq_iff_eq] at hp
    exact ⟨w, hm, rfl, hp.1.1.1, hp.1.1.2, hp.1.2, hp.2⟩
  · rintro ⟨w, hw, rfl, hm, h1, h2, h3⟩
    refine ⟨w, ⟨(List.perm_insertionSort queryLE s).mem_iff.mpr hw, ?_⟩, rfl⟩
    simp [pendingPred, hm, h1, h2, h3]

/-- C6 counterexample: two records with equal created_at, where the
record with the larger primary key id carries the smaller
submission_uuid, are listed in id order, not in submission_uuid order:
the output is b then a although a precedes b as a string. -/
theorem review_order_not_by_uuid :
    get_submissions_for_review
        [{ w0 with id := 2, submission_uuid := "a" },
         { w0 with id := 1, submission_uuid := "b" }] "c" "i"
      = ["b", "a"]
    ∧ ({ w0 with id := 2, submission_uuid := "a" } : StaffWorkflow).created_at
        = ({ w0 with id := 1, submission_uuid := "b" } : StaffWorkflow).created_at
    ∧ ("a" : String) < "b" := by
  refine ⟨by decide, rfl, ?_⟩
  rw [String.lt_iff_toList_lt]
  decide

/-- C6 (amended): the sequence returned by get_submissions_for_review is
the submission_uuid projection of the pending records sorted ascending
by the pair of created_at and primary key id, the Meta ordering of the
model; the result is a function of the store alone, hence stable across
repeated reads of an unchanged store. -/
theorem review_order_by_created_at_id (s : Store) (c i : String) :
    List.Sorted queryLE ((orderedRecords s).filter (pendingPred c i))
    ∧ get_submissions_for_review s c i
        = ((orderedRecords s).filter (pendingPred c i)).map
            (fun w => w.submission_uuid) :=
  ⟨(List.sorted_insertionSort queryLE s).sublist
      (List.filter_sublist (List.insertionSort queryLE s)), rfl⟩

/-- C5 counterexample: a record leased at t0 = 1000 is classified as
ungraded, not in-progress, at the instant t0 + TIME_LIMIT, although that
instant lies in the half-open interval from t0 exclusive to
t0 + TIME_LIMIT inclusive named by the claim. -/
theorem expiry_boundary_counterexample :
    ((1000 : Int) < 1000 + TIME_LIMIT)
    ∧ (get_workflow_statistics [{ w0 with grading_started_at := some 1000 }]
        "c" "i" (1000 + TIME_LIMIT)).in_progress = 0
    ∧ (get_workflow_statistics [{ w0 with grading_started_at := some 1000 }]
        "c" "i" (1000 + TIME_LIMIT)).ungraded = 1 :=
  ⟨by decide, by decide, by decide⟩

/-- C5 (amended): a record of the category leased at t0 with no
completion or cancellation is counted as in-progress by
get_workflow_statistics for every now with t0 < now < t0 + TIME_LIMIT
and as ungraded for every now with t0 + TIME_LIMIT ≤ now; the boundary
instant t0 + TIME_LIMIT itself already counts as ungraded, because the
in-progress query requires grading_started_at strictly greater than the
cutoff now - TIME_LIMIT; the reclassification involves no write, the
aggregation leaving the table unchanged. -/
theorem stats_expiry_reclassification (w : StaffWorkflow) (c i : String)
    (t0 t : Int) (hm : categoryMatch c i w = true)
    (hs : w.grading_started_at = some t0)
    (hg : w.grading_completed_at = none)
    (hc : w.cancelled_at = none) :
    (t0 < t → t < t0 + TIME_LIMIT →
      get_workflow_statistics [w] c i t = ⟨0, 1, 0⟩)
    ∧ (t0 + TIME_LIMIT ≤ t →
      get_workflow_statistics [w] c i t = ⟨1, 0, 0⟩)
    ∧ ∀ s : Store, (get_workflow_statistics_op s c i t).2 = s := by
  refine ⟨?_, ?_, fun s => rfl⟩ <;>
    · intros
      simp only [get_workflow_statistics, List.countP_cons, List.countP_nil,
        ungradedPred, inProgressPred, gradedPred, staleLease, activeLease,
        hm, hs, hg, hc, Stats.mk.injEq]
      norm_num
      omega

/-- Witness for stats_expiry_reclassification at a record leased at 1000,
read at instant 2000. -/
theorem stats_expiry_reclassification_witness :
    categoryMatch "c" "i" { w0 with grading_started_at := some 1000 } = true
    ∧ ({ w0 with grading_started_at := some 1000 } : StaffWorkflow).grading_started_at = some 1000
    ∧ ({ w0 with grading_started_at := some 1000 } : StaffWorkflow).grading_completed_at = none
    ∧ ({ w0 with grading_started_at := some 1000 } : StaffWorkflow).cancelled_at = none
    ∧ (((1000 : Int) < 2000 → 2000 < 1000 + TIME_LIMIT →
        get_workflow_statistics [{ w0 with grading_started_at := some 1000 }] "c" "i" 2000 = ⟨0, 1, 0⟩)
      ∧ ((1000 : Int) + TIME_LIMIT ≤ 2000 →
        get_workflow_statistics [{ w0 with grading_started_at := some 1000 }] "c" "i" 2000 = ⟨1, 0, 0⟩)
      ∧ ∀ s : Store, (get_workflow_statistics_op s "c" "i" 2000).2 = s) :=
  ⟨rfl, rfl, rfl, rfl,
    stats_expiry_reclassification { w0 with grading_started_at := some 1000 }
      "c" "i" 1000 2000 rfl rfl rfl rfl⟩

/-- A conditional-update attempt fails and leaves the store unchanged
when no record satisfies the write-time precondition. -/
theorem casClaim_of_no_candidate (s : Store) (u sc : String) (t : Int)
    (h : s.countP (casTarget u (t - TIME_LIMIT)) = 0) :
    casClaim s u sc t = (false, s) := by
  have hany : s.any (casTarget u (t - TIME_LIMIT)) = false := by
    rw [List.any_eq_false]
    intro w hw
    exact List.countP_eq_zero.mp h w hw
  unfold casClaim
  rw [hany]
  rfl

/-- A conditional-update attempt on a store holding a satisfying record
succeeds, and afterwards no record satisfies the precondition at the
same instant, because the freshly written lease is not yet expired. -/
theorem casClaim_success (s : Store) (u sc : String) (t : Int)
    (h : 0 < s.countP (casTarget u (t - TIME_LIMIT))) :
    (casClaim s u sc t).1 = true
    ∧ (casClaim s u sc t).2.countP (casTarget u (t - TIME_LIMIT)) = 0 := by
  have hany : s.any (casTarget u (t - TIME_LIMIT)) = true := by
    rw [List.any_eq_true]
    obtain ⟨w, hw, hp⟩ := List.countP_pos_iff.mp h
    exact ⟨w, hw, hp⟩
  unfold casClaim
  rw [hany, if_pos rfl]
  refine ⟨rfl, ?_⟩
  rw [List.countP_eq_zero]
  intro w hw
  rw [List.mem_map] at hw
  obtain ⟨x, hx, rfl⟩ := hw
  by_cases hcx : casTarget u (t - TIME_LIMIT) x = true
  · rw [if_pos hcx]
    simp only [casTarget, claimablePred, staleLease, leaseRecord, Bool.and_eq_true,
      decide_eq_true_eq, not_and, Bool.not_eq_true]
    intros
    simp only [TIME_LIMIT] at *
    omega
  · rw [if_neg hcx]
    exact hcx

/-- Every conditional-update attempt of a schedule fails when no record
satisfies the precondition. -/
theorem runCas_no_candidate (s : Store) (u : String) (scorers : List String)
    (t : Int) (h : s.countP (casTarget u (t - TIME_LIMIT)) = 0) :
    (runCas s u scorers t).1.count true = 0 := by
  induction scorers generalizing s with
  | nil => rfl
  | cons sc rest ih =>
      unfold runCas
      rw [casClaim_of_no_candidate s u sc t h]
      simpa using ih s h

/-- C9: when the records satisfying the claim precondition for
submission uuid u at instant t are exactly one, any linearization of N
concurrent claim attempts produces exactly one success, and any prior
lease on a record still satisfying the precondition had already expired
a full TIME_LIMIT before t, so the new lease interval cannot overlap the
old one.  Modelled from the spec (sections 4.1 and 4.2): the
ClaimSelector is not under src. -/
theorem claim_next_mutual_exclusion (s : Store) (u : String)
    (scorers : List String) (t : Int)
    (h1 : s.countP (casTarget u (t - TIME_LIMIT)) = 1)
    (h2 : scorers ≠ []) :
    (runCas s u scorers t).1.count true = 1
    ∧ ∀ w ∈ s, casTarget u (t - TIME_LIMIT) w = true →
        ∀ g, w.grading_started_at = some g → g + TIME_LIMIT ≤ t := by
  constructor
  · match scorers with
    | [] => exact absurd rfl h2
    | sc :: rest =>
        unfold runCas
        have hsucc := casClaim_success s u sc t (by omega)
        have hrest := runCas_no_candidate (casClaim s u sc t).2 u rest t hsucc.2
        simp [List.count_cons, hsucc.1, hrest]
  · intro w _ hc g hg
    simp only [casTarget, claimablePred, staleLease, hg, Bool.and_eq_true,
      decide_eq_true_eq] at hc
    omega

/-- Witness for claim_next_mutual_exclusion: the fresh record w0 is the
single candidate and two racing scorers produce exactly one success. -/
theorem claim_next_mutual_exclusion_witness :
    ([w0] : Store).countP (casTarget "u0" (100000 - TIME_LIMIT)) = 1
    ∧ (["s1", "s2"] : List String) ≠ []
    ∧ ((runCas [w0] "u0" ["s1", "s2"] 100000).1.count true = 1
      ∧ ∀ w ∈ ([w0] : Store), casTarget "u0" (100000 - TIME_LIMIT) w = true →
          ∀ g, w.grading_started_at = some g → g + TIME_LIMIT ≤ 100000) :=
  ⟨by decide, by decide,
    claim_next_mutual_exclusion [w0] "u0" ["s1", "s2"] 100000 (by decide) (by decide)⟩

/-- C10: close_active_assessment touches only the assessment, scorer_id
and grading_completed_at fields of the addressed record: the store keeps
its length, every row keeps its id, submission_uuid, course_id, item_id,
created_at, grading_started_at, cancelled_at and returned_at, and every
row whose submission_uuid differs from the addressed one is entirely
unchanged. -/
theorem close_active_assessment_frame (s : Store) (u : String)
    (a : Assessment) (sc : String) (t : Int) (j : Nat) (w : StaffWorkflow)
    (h : s[j]? = some w) :
    (store_close_active_assessment s u a sc t).length = s.length
    ∧ ∃ w', (store_close_active_assessment s u a sc t)[j]? = some w'
        ∧ w'.id = w.id
        ∧ w'.submission_uuid = w.submission_uuid
        ∧ w'.course_id = w.course_id
        ∧ w'.item_id = w.item_id
        ∧ w'.created_at = w.created_at
        ∧ w'.grading_started_at = w.grading_started_at
        ∧ w'.cancelled_at = w.cancelled_at
        ∧ w'.returned_at = w.returned_at
        ∧ (w.submission_uuid ≠ u → w' = w) := by
  refine ⟨by simp [store_close_active_assessment], ?_⟩
  refine ⟨if w.submission_uuid == u then close_active_assessment w a sc t else w,
    ?_, ?_⟩
  · simp [store_close_active_assessment, h]
  · by_cases hu : w.submission_uuid == u
    · simp [hu, close_active_assessment]
      intro hne
      exact absurd (by exact of_decide_eq_true hu) hne
    · simp [hu]

/-- Witness for close_active_assessment_frame on a two-record store at
index 1, whose record does not carry the addressed submission_uuid. -/
theorem close_active_assessment_frame_witness :
    ([w0, { w0 with id := 1, submission_uuid := "u1" }] : Store)[1]?
        = some { w0 with id := 1, submission_uuid := "u1" }
    ∧ ((store_close_active_assessment [w0, { w0 with id := 1, submission_uuid := "u1" }]
          "u0" ⟨"a1"⟩ "s1" 10).length
        = ([w0, { w0 with id := 1, submission_uuid := "u1" }] : Store).length
      ∧ ∃ w', (store_close_active_assessment [w0, { w0 with id := 1, submission_uuid := "u1" }]
            "u0" ⟨"a1"⟩ "s1" 10)[1]? = some w'
          ∧ w'.id = ({ w0 with id := 1, submission_uuid := "u1" } : StaffWorkflow).id
          ∧ w'.submission_uuid = ({ w0 with id := 1, submission_uuid := "u1" } : StaffWorkflow).submission_uuid
          ∧ w'.course_id = ({ w0 with id := 1, submission_uuid := "u1" } : StaffWorkflow).course_id
          ∧ w'.item_id = ({ w0 with id := 1, submission_uuid := "u1" } : StaffWorkflow).item_id
          ∧ w'.created_at = ({ w0 with id := 1, submission_uuid := "u1" } : StaffWorkflow).created_at
          ∧ w'.grading_started_at = ({ w0 with id := 1, submission_uuid := "u1" } : StaffWorkflow).grading_started_at
          ∧ w'.cancelled_at = ({ w0 with id := 1, submission_uuid := "u1" } : StaffWorkflow).cancelled_at
          ∧ w'.returned_at = ({ w0 with id := 1, submission_uuid := "u1" } : StaffWorkflow).returned_at
          ∧ (({ w0 with id := 1, submission_uuid := "u1" } : StaffWorkflow).submission_uuid ≠ "u0" → w' = { w0 with id := 1, submission_uuid := "u1" })) :=
  ⟨rfl, close_active_assessment_frame [w0, { w0 with id := 1, submission_uuid := "u1" }]
    "u0" ⟨"a1"⟩ "s1" 10 1 { w0 with id := 1, submission_uuid := "u1" } rfl⟩

end OraStaff
